import Mathlib

/-!
Verification of the local_rag repository's core routines: the PDF
layout-aware text extraction (`pdf_processor.py`), the vector-store and
pipeline plumbing (`vectorstore.py`, `pipeline.py`, `generator.py`) and the
ingestion CLI's document loader (`scripts/ingest_documents.py`).

Real numbers of the Python source (PDF coordinates, font sizes, scores) are
modelled as rationals; Python ints as integers; optional values as `Option`;
exceptions as `Except`.  External services (pdfplumber word extraction, the
Chroma vector store, the text splitter, the Ollama LLM) are modelled as
abstract function parameters: the repository only wires them together.
-/

namespace LocalRag

/-! ## Data model: bounding boxes, words, text elements (pdf_processor.py) -/

/-- `BoundingBox` dataclass of pdf_processor.py. -/
structure BoundingBox where
  x0 : ℚ
  y0 : ℚ
  x1 : ℚ
  y1 : ℚ
  width : ℚ
  height : ℚ
  deriving Repr, DecidableEq

/-- A word as returned by pdfplumber's `page.extract_words` with
`extra_attrs=["fontname", "size"]`: its text, its box (`x0`, `top`, `x1`,
`bottom`) and the two extra attributes, which the code reads with
`word.get(..., default)`, hence `Option`. -/
structure Word where
  text : String
  x0 : ℚ
  top : ℚ
  x1 : ℚ
  bottom : ℚ
  fontname : Option String
  size : Option ℚ
  deriving Repr, DecidableEq

/-- `word.get("fontname", "")`. -/
def Word.fontnameD (w : Word) : String := w.fontname.getD ""

/-- `word.get("size", 0)`. -/
def Word.sizeD (w : Word) : ℚ := w.size.getD 0

/-- The `BoundingBox(...)` built for each word in `extract_text_elements`. -/
def Word.bbox (w : Word) : BoundingBox :=
  { x0 := w.x0
    y0 := w.top
    x1 := w.x1
    y1 := w.bottom
    width := w.x1 - w.x0
    height := w.bottom - w.top }

/-- `TextElement` dataclass of pdf_processor.py. -/
structure TextElement where
  text : String
  bbox : BoundingBox
  page_number : ℕ
  font_size : Option ℚ := none
  font_name : Option String := none
  is_bold : Bool := false
  is_italic : Bool := false
  deriving Repr, DecidableEq

/-- Python truthiness of an `Optional[float]`: `None` and `0` are falsy. -/
def ratTruthy : Option ℚ → Bool
  | none => false
  | some q => q != 0

/-- Does the character list start with the pattern? (helper for Python's
`pat in s` substring test). -/
def charsStartWith : List Char → List Char → Bool
  | _, [] => true
  | [], _ :: _ => false
  | a :: as, b :: bs => a == b && charsStartWith as bs

/-- Does the character list contain the pattern as a contiguous run? -/
def charsContain : List Char → List Char → Bool
  | [], pat => pat.isEmpty
  | a :: as, pat => charsStartWith (a :: as) pat || charsContain as pat

/-- Python's `pat in s` on strings: substring containment. -/
def strContains (s pat : String) : Bool := charsContain s.toList pat.toList

/-- Python's `s.lower()` (the repository only lowers ASCII file extensions
and font names). -/
def strLower (s : String) : String := String.mk (s.toList.map Char.toLower)

/-- Floor of a rational, written out executably (numerator by denominator,
floor division). -/
def ratFloor (q : ℚ) : ℤ := Int.fdiv q.num q.den

/-- Rounding to the nearest integer, standing in for the rounding of
Python's fixed-point float formatting (no claim turns on tie behaviour). -/
def ratRound (q : ℚ) : ℤ := ratFloor (q + 1 / 2)

/-- Python's `f"{x:.0f}"`: the value rounded to an integer, in decimal. -/
def fmt0 (q : ℚ) : String := toString (ratRound q)

/-- Python's `f"{x:.1f}"`: the value rounded to one decimal place. -/
def fmt1 (q : ℚ) : String :=
  let n : ℤ := ratRound (q * 10)
  (if n < 0 then "-" else "")
    ++ toString (n.natAbs / 10) ++ "." ++ toString (n.natAbs % 10)

/-- Python's `s.split()` with no argument: the whitespace-separated words,
empty pieces dropped. -/
def pySplit (s : String) : List String :=
  (s.split (fun c => c.isWhitespace)).filter (fun t => !t.isEmpty)

/-- `TextElement.position_context` (pdf_processor.py lines 44-63). -/
def TextElement.position_context (e : TextElement) : String :=
  let v_pos : String :=
    if e.bbox.y0 < 100 then "top"
    else if e.bbox.y0 > 600 then "bottom"
    else "middle"
  let h_pos : String :=
    if e.bbox.x0 < 200 then "left"
    else if e.bbox.x0 > 400 then "right"
    else "center"
  v_pos ++ "-" ++ h_pos

/-- `TextElement.is_likely_heading` (pdf_processor.py lines 65-72):
`if self.font_size and self.font_size > 12: return True`,
`if self.is_bold and len(self.text.split()) < 10: return True`. -/
def TextElement.is_likely_heading (e : TextElement) : Bool :=
  if ratTruthy e.font_size && decide ((e.font_size.getD 0) > 12) then true
  else if e.is_bold && decide ((pySplit e.text).length < 10) then true
  else false

/-! ## Line grouping (`PDFLayoutProcessor.extract_text_elements`)

A page is the list of words pdfplumber's `extract_words` yields for it; a
PDF is the list of its pages.  The loop keeps `current_line_words` and
`current_line_bbox`; the two are always set together, so the state is
`Option (List Word × BoundingBox)`. -/

/-- The bounding-box expansion of lines 131-140: componentwise min/max with
the new word's box, width/height recomputed from the expanded corners. -/
def expandBBox (cur new : BoundingBox) : BoundingBox :=
  { x0 := min cur.x0 new.x0
    y0 := min cur.y0 new.y0
    x1 := max cur.x1 new.x1
    y1 := max cur.y1 new.y1
    width := max cur.x1 new.x1 - min cur.x0 new.x0
    height := max cur.y1 new.y1 - min cur.y0 new.y0 }

/-- `current_line_words[0].get("fontname", "")`. -/
def firstFont : List Word → String
  | [] => ""
  | w :: _ => w.fontnameD

/-- The `TextElement` built from a finished line (lines 144-160 and the
identical "last line" block 167-184): text joined with spaces, the mean of
the words' `get("size", 0)` values, and bold/italic read off the first
word's font name. -/
def mkLineElement (page_num : ℕ) (ws : List Word) (bb : BoundingBox) : TextElement :=
  let line_text := String.intercalate " " (ws.map Word.text)
  let avg_size : ℚ := (ws.map Word.sizeD).sum / (ws.length : ℚ)
  let ff := firstFont ws
  { text := line_text
    bbox := bb
    page_number := page_num
    font_size := some avg_size
    font_name := some ff
    is_bold := strContains (strLower ff) "bold"
    is_italic := strContains (strLower ff) "italic" }

/-- The word loop of `extract_text_elements` (lines 112-184) for one page:
a word whose top is within 5 of the accumulated box's `y0` joins the
current line and expands the box; otherwise the pending line is emitted and
a fresh line starts with the word; the pending line is emitted at the end. -/
def groupWordsAux (page_num : ℕ) : List Word → Option (List Word × BoundingBox) → List TextElement
  | [], none => []
  | [], some (ws, bb) => [mkLineElement page_num ws bb]
  | w :: rest, none => groupWordsAux page_num rest (some ([w], w.bbox))
  | w :: rest, some (ws, bb) =>
      if |w.bbox.y0 - bb.y0| < 5 then
        groupWordsAux page_num rest (some (ws ++ [w], expandBBox bb w.bbox))
      else
        mkLineElement page_num ws bb :: groupWordsAux page_num rest (some ([w], w.bbox))

/-- `PDFLayoutProcessor.extract_text_elements`: pages are processed in
order with `page_num` counted from 1, each page's words grouped into lines.
-/
def extract_text_elements (pages : List (List Word)) : List TextElement :=
  (List.enumFrom 1 pages).flatMap (fun p => groupWordsAux p.1 p.2 none)

/-! ### The claim's description of the grouping, stated in its own words -/

/-- The minimum top coordinate over the words of a (pending) line. -/
def lineMinTop : List Word → ℚ
  | [] => 0
  | w :: rest => (rest.map Word.top).foldl min w.top

/-- The claimed grouping rule: a word joins the current line exactly when
its top is strictly within 5 of the minimum top over the words already in
the line; otherwise the line is closed and a new one starts. -/
def specGroupAux : List Word → List Word → List (List Word)
  | [], cur => [cur]
  | w :: rest, cur =>
      if |w.top - lineMinTop cur| < 5 then specGroupAux rest (cur ++ [w])
      else cur :: specGroupAux rest [w]

/-- The claimed grouping of a page's word sequence into lines. -/
def specGroupLines : List Word → List (List Word)
  | [] => []
  | w :: rest => specGroupAux rest [w]

/-- The claimed line box: the componentwise min/max corners over the member
words' boxes (its width and height span those corners). -/
def specLineBBox : List Word → BoundingBox
  | [] => ⟨0, 0, 0, 0, 0, 0⟩
  | w :: rest =>
      let bx0 := (rest.map Word.x0).foldl min w.x0
      let by0 := (rest.map Word.top).foldl min w.top
      let bx1 := (rest.map Word.x1).foldl max w.x1
      let by1 := (rest.map Word.bottom).foldl max w.bottom
      ⟨bx0, by0, bx1, by1, bx1 - bx0, by1 - by0⟩

/-- The claimed element for one emitted line: joined text, the min/max box,
the mean font size, style flags from the first member word. -/
def specLineElement (page_num : ℕ) (ws : List Word) : TextElement :=
  mkLineElement page_num ws (specLineBBox ws)

/-- The claim's rendering of the whole extraction. -/
def specExtract (pages : List (List Word)) : List TextElement :=
  (List.enumFrom 1 pages).flatMap
    (fun p => (specGroupLines p.2).map (specLineElement p.1))

/-! ### Equivalence of the loop with the claimed grouping -/

theorem specLineBBox_single (w : Word) : specLineBBox [w] = w.bbox := rfl

theorem specLineBBox_y0 (v : Word) (vs : List Word) :
    (specLineBBox (v :: vs)).y0 = lineMinTop (v :: vs) := rfl

theorem specLineBBox_append (v : Word) (vs : List Word) (w : Word) :
    specLineBBox ((v :: vs) ++ [w]) = expandBBox (specLineBBox (v :: vs)) w.bbox := by
  simp [specLineBBox, expandBBox, Word.bbox, List.foldl_append]

theorem groupWordsAux_eq_spec (n : ℕ) (rest : List Word) :
    ∀ (v : Word) (vs : List Word),
      groupWordsAux n rest (some (v :: vs, specLineBBox (v :: vs)))
        = (specGroupAux rest (v :: vs)).map (specLineElement n) := by
  induction rest with
  | nil =>
      intro v vs
      simp [groupWordsAux, specGroupAux, specLineElement]
  | cons w rest ih =>
      intro v vs
      have hy : (w.bbox).y0 = w.top := rfl
      by_cases h : |w.top - lineMinTop (v :: vs)| < 5
      · rw [groupWordsAux, specGroupAux]
        rw [if_pos (by rw [hy, specLineBBox_y0]; exact h), if_pos h]
        rw [← specLineBBox_append]
        have : (v :: vs) ++ [w] = v :: (vs ++ [w]) := rfl
        rw [this]
        exact ih v (vs ++ [w])
      · rw [groupWordsAux, specGroupAux]
        rw [if_neg (by rw [hy, specLineBBox_y0]; exact h), if_neg h]
        rw [show w.bbox = specLineBBox [w] from rfl]
        rw [ih w []]
        simp [specLineElement]

theorem groupWords_eq_spec (n : ℕ) (ws : List Word) :
    groupWordsAux n ws none = (specGroupLines ws).map (specLineElement n) := by
  cases ws with
  | nil => rfl
  | cons w rest =>
      rw [groupWordsAux, specGroupLines]
      rw [show w.bbox = specLineBBox [w] from rfl]
      exact groupWordsAux_eq_spec n rest w []

/-- Claim C1.  `extract_text_elements` groups every page's word sequence
into lines exactly as the claim describes: a word joins the current line
precisely when its top coordinate is strictly within 5 of the minimum top
over the words already in the line, otherwise the pending line is emitted
and restarted; each emitted line carries the space-joined text, the
componentwise min/max bounding box, the mean word size as font size, and
bold/italic flags taken from the first member word's font name; the final
pending line of each page is emitted too. -/
theorem C1_extract_text_elements_line_grouping (pages : List (List Word)) :
    extract_text_elements pages = specExtract pages := by
  rw [extract_text_elements, specExtract]
  induction List.enumFrom 1 pages with
  | nil => rfl
  | cons p l ih =>
      simp only [List.flatMap_cons, ih, groupWords_eq_spec]

/-! ## Layout-annotated serialization (`format_with_layout_context`) -/

/-- The `"=" * 80` page separator line. -/
def eqSeparator : String := String.mk (List.replicate 80 '=')

/-- The bracketed annotation list of lines 210-233, in the order the code
appends them: position, `type:heading` when the heuristic fires, `size:`
when the font size is truthy, the style flags, and the rounded box. -/
def elementAnnotationList (e : TextElement) : List String :=
  ["position:" ++ e.position_context]
    ++ (if e.is_likely_heading then ["type:heading"] else [])
    ++ (if ratTruthy e.font_size then ["size:" ++ fmt1 (e.font_size.getD 0)] else [])
    ++ (if e.is_bold then ["style:bold"] else [])
    ++ (if e.is_italic then ["style:italic"] else [])
    ++ ["bbox:[" ++ fmt0 e.bbox.x0 ++ "," ++ fmt0 e.bbox.y0 ++ ","
          ++ fmt0 e.bbox.x1 ++ "," ++ fmt0 e.bbox.y1 ++ "]"]

/-- What one element contributes after any page header: with layout, the
`" | "`-joined annotations in brackets then the text (lines 235-236);
without, just the text and a newline (line 238). -/
def elementPart (preserve_layout : Bool) (e : TextElement) : String :=
  if preserve_layout then
    "[" ++ String.intercalate " | " (elementAnnotationList e) ++ "]\n" ++ e.text ++ "\n\n"
  else
    e.text ++ "\n"

/-- The loop of `format_with_layout_context` (lines 197-238): the
`formatted_parts` list, with `current_page` as loop state (`none` before
any page is seen). -/
def formatAux (pl : Bool) : Option ℕ → List TextElement → List String
  | _, [] => []
  | current_page, e :: rest =>
      if some e.page_number ≠ current_page then
        (if current_page ≠ none then ["\n" ++ eqSeparator ++ "\n"] else [])
          ++ ["[PAGE " ++ toString e.page_number ++ "]\n\n"]
          ++ [elementPart pl e]
          ++ formatAux pl (some e.page_number) rest
      else
        elementPart pl e :: formatAux pl current_page rest

/-- `PDFLayoutProcessor.format_with_layout_context`: `"".join` of the
collected parts. -/
def format_with_layout_context (pl : Bool) (elements : List TextElement) : String :=
  String.join (formatAux pl none elements)

/-! ### The claim's rendering: page headers fire exactly when an element's
page differs from the previous element's page, the very first element
getting a header with no separator before it. -/

/-- The claim's serialization after the first element: an element whose
page differs from the previous element's page is preceded by the separator
line and the `[PAGE n]` header. -/
def specFormatAux (pl : Bool) (prevPage : ℕ) : List TextElement → String
  | [] => ""
  | e :: rest =>
      (if e.page_number ≠ prevPage then
        "\n" ++ eqSeparator ++ "\n" ++ "[PAGE " ++ toString e.page_number ++ "]\n\n"
      else "")
        ++ elementPart pl e ++ specFormatAux pl e.page_number rest

/-- The claim's serialization: the first element emits its page header with
no separator, later elements emit one exactly on a page change. -/
def specFormatLayout (pl : Bool) : List TextElement → String
  | [] => ""
  | e :: rest =>
      "[PAGE " ++ toString e.page_number ++ "]\n\n" ++ elementPart pl e
        ++ specFormatAux pl e.page_number rest

theorem strJoin_cons (s : String) (l : List String) :
    String.join (s :: l) = s ++ String.join l := by
  apply String.ext
  simp [String.join_eq]

theorem formatAux_some (pl : Bool) (l : List TextElement) :
    ∀ p : ℕ, String.join (formatAux pl (some p) l) = specFormatAux pl p l := by
  induction l with
  | nil => intro p; rfl
  | cons e rest ih =>
      intro p
      by_cases h : e.page_number = p
      · subst h
        rw [formatAux, specFormatAux]
        rw [if_neg (by simp), if_neg (by simp)]
        rw [strJoin_cons, ih]
        simp
      · rw [formatAux, specFormatAux]
        rw [if_pos (show some e.page_number ≠ some p from
            fun hc => h (Option.some.inj hc)),
          if_pos h, if_pos (by simp)]
        simp only [List.cons_append, List.nil_append, strJoin_cons, ih]
        simp [String.ext_iff]

/-- Claim C3.  `format_with_layout_context` serializes elements in order:
a `[PAGE n]` header appears exactly when an element's page number differs
from the previous element's (preceded by the 80-`'='` separator line except
before the first page encountered), and this happens whether or not layout
is preserved; with layout each element carries its bracketed annotation
list (position, optional heading tag, optional one-decimal size, style
flags, rounded box, joined by `" | "`); without layout each element
contributes its text and a newline. -/
theorem C3_format_with_layout_context (pl : Bool) (elements : List TextElement) :
    format_with_layout_context pl elements = specFormatLayout pl elements
    ∧ (∀ e : TextElement,
        elementPart true e
          = "[" ++ String.intercalate " | " (elementAnnotationList e) ++ "]\n"
              ++ e.text ++ "\n\n")
    ∧ (∀ e : TextElement, elementPart false e = e.text ++ "\n") := by
  refine ⟨?_, fun e => rfl, fun e => rfl⟩
  cases elements with
  | nil => rfl
  | cons e rest =>
      rw [format_with_layout_context, formatAux, specFormatLayout]
      rw [if_pos (by simp), if_neg (by simp)]
      simp only [List.cons_append, List.nil_append, strJoin_cons, formatAux_some]
      simp [String.ext_iff]

/-- Claim C2.  The heading heuristic holds exactly when the element has a
truthy font size strictly greater than 12, or is bold with strictly fewer
than 10 whitespace-separated words; and the position context is the
"{v}-{h}" string with v chosen by y0 against 100/600 and h by x0 against
200/400. -/
theorem C2_heading_and_position (e : TextElement) :
    (e.is_likely_heading = true ↔
      ((∃ s : ℚ, e.font_size = some s ∧ s ≠ 0 ∧ s > 12)
        ∨ (e.is_bold = true ∧ (pySplit e.text).length < 10)))
    ∧ e.position_context =
        ((if e.bbox.y0 < 100 then "top"
          else if e.bbox.y0 > 600 then "bottom"
          else "middle")
          ++ "-"
          ++ (if e.bbox.x0 < 200 then "left"
              else if e.bbox.x0 > 400 then "right"
              else "center")) := by
  constructor
  · cases h : e.font_size with
    | none => simp [TextElement.is_likely_heading, ratTruthy, h]
    | some s =>
        by_cases hs : s ≠ 0 ∧ s > 12
        · simp [TextElement.is_likely_heading, ratTruthy, h, bne_iff_ne, hs.1, hs.2]
        · rw [not_and_or] at hs
          rcases hs with hs | hs
          · push_neg at hs
            subst hs
            simp [TextElement.is_likely_heading, ratTruthy, h]
          · simp [TextElement.is_likely_heading, ratTruthy, h, hs]
  · rfl

/-! ## Configuration (`config.py`) and the vector store (`vectorstore.py`)

External services keep only their observable behaviour: the Chroma client
is a pair of search functions and an add function, the text splitter a
function from the configured sizes and length function to a document
transformer, the Ollama LLM an invoke function and a stream. -/

/-- The `Settings` fields the verified code reads, with their defaults. -/
structure Settings where
  chunk_size : ℤ := 1000
  chunk_overlap : ℤ := 200
  top_k : ℤ := 4
  deriving Repr, DecidableEq

/-- A langchain `Document`: page content plus a metadata dict (modelled as
an association list). -/
structure Document where
  page_content : String
  metadata : List (String × String)
  deriving Repr, DecidableEq

/-- The external Chroma-backed vector store. -/
structure ChromaStore where
  search : String → ℤ → List Document
  searchWithScore : String → ℤ → List (Document × ℚ)
  addDocs : List Document → List String

/-- The external `RecursiveCharacterTextSplitter` constructor: chunk size,
chunk overlap and length function give a document splitter. -/
structure SplitterFamily where
  split : ℤ → ℤ → (String → ℕ) → List Document → List Document

/-- `VectorStoreManager` after `__init__`: the settings, the store client
and the splitter it configured. -/
structure VectorStoreManager where
  settings : Settings
  store : ChromaStore
  splitFn : List Document → List Document

/-- `VectorStoreManager.__init__`: the splitter is configured with
`settings.chunk_size`, `settings.chunk_overlap` and `length_function=len`
(character count). -/
def mkVectorStoreManager (settings : Settings) (store : ChromaStore)
    (splitterF : SplitterFamily) : VectorStoreManager :=
  { settings, store
    splitFn := splitterF.split settings.chunk_size settings.chunk_overlap
      (fun s => s.length) }

/-- Python's `meta or {}` on a metadata dict. -/
def pyDictOr (m d : List (String × String)) : List (String × String) :=
  if m.isEmpty then d else m

/-- `VectorStoreManager.add_documents` (vectorstore.py lines 44-65):
`zip(documents, metadatas or [{}] * len(documents))`, wrap, split, add. -/
def VectorStoreManager.add_documents (vsm : VectorStoreManager)
    (documents : List String)
    (metadatas : Option (List (List (String × String)))) : List String :=
  let metas :=
    match metadatas with
    | none => List.replicate documents.length []
    | some ms => if ms.isEmpty then List.replicate documents.length [] else ms
  let docs := (documents.zip metas).map
    (fun p => Document.mk p.1 (pyDictOr p.2 []))
  let split_docs := vsm.splitFn docs
  vsm.store.addDocs split_docs

/-- Python's `k = k or self.settings.top_k`: `None` and `0` fall back. -/
def effectiveK (k : Option ℤ) (top_k : ℤ) : ℤ :=
  match k with
  | none => top_k
  | some n => if n = 0 then top_k else n

/-- `VectorStoreManager.similarity_search` (lines 67-78). -/
def VectorStoreManager.similarity_search (vsm : VectorStoreManager)
    (query : String) (k : Option ℤ) : List Document :=
  vsm.store.search query (effectiveK k vsm.settings.top_k)

/-- `VectorStoreManager.similarity_search_with_score` (lines 80-91). -/
def VectorStoreManager.similarity_search_with_score (vsm : VectorStoreManager)
    (query : String) (k : Option ℤ) : List (Document × ℚ) :=
  vsm.store.searchWithScore query (effectiveK k vsm.settings.top_k)

/-! ## Generation (`generator.py`) and the pipeline (`pipeline.py`) -/

/-- The external Ollama LLM client: a blocking invoke and a chunk stream
(the stream modelled as the list of chunks it yields). -/
structure OllamaLLM where
  invoke : String → String
  stream : String → List String

/-- `Generator` after `__init__`: the LLM and the prompt template's
`format(context=..., question=...)`. -/
structure Generator where
  llm : OllamaLLM
  promptFormat : String → String → String

/-- `Generator.generate` (generator.py lines 46-64): join the context
documents with blank lines, format the prompt, invoke the LLM. -/
def Generator.generate (g : Generator) (question : String)
    (context_documents : List Document) : String :=
  let context := String.intercalate "\n\n" (context_documents.map Document.page_content)
  let formatted_prompt := g.promptFormat context question
  g.llm.invoke formatted_prompt

/-- `Generator.generate_stream` (generator.py lines 66-84): same prompt,
then `for chunk in self.llm.stream(...): yield chunk`. -/
def Generator.generate_stream (g : Generator) (question : String)
    (context_documents : List Document) : List String :=
  let context := String.intercalate "\n\n" (context_documents.map Document.page_content)
  let formatted_prompt := g.promptFormat context question
  (g.llm.stream formatted_prompt).map (fun chunk => chunk)

/-- `RAGPipeline` after `__init__`. -/
structure RAGPipeline where
  settings : Settings
  vectorstore : VectorStoreManager
  generator : Generator

/-- The dictionary `RAGPipeline.query` returns. -/
structure QueryResult where
  answer : String
  context : List Document
  question : String
  num_context_docs : ℕ
  deriving Repr, DecidableEq

/-- The dictionary `RAGPipeline.query_with_scores` returns. -/
structure ScoredQueryResult where
  answer : String
  context : List (Document × ℚ)
  question : String
  num_context_docs : ℕ
  deriving Repr, DecidableEq

/-- `RAGPipeline.query` (pipeline.py lines 42-63). -/
def RAGPipeline.query (rag : RAGPipeline) (question : String)
    (k : Option ℤ) : QueryResult :=
  let context_docs := rag.vectorstore.similarity_search question k
  let answer := rag.generator.generate question context_docs
  { answer, context := context_docs, question
    num_context_docs := context_docs.length }

/-- `RAGPipeline.query_with_scores` (pipeline.py lines 65-87). -/
def RAGPipeline.query_with_scores (rag : RAGPipeline) (question : String)
    (k : Option ℤ) : ScoredQueryResult :=
  let docs_with_scores := rag.vectorstore.similarity_search_with_score question k
  let context_docs := docs_with_scores.map (fun p => p.1)
  let answer := rag.generator.generate question context_docs
  { answer, context := docs_with_scores, question
    num_context_docs := context_docs.length }

/-- `RAGPipeline.query_stream` (pipeline.py lines 89-103). -/
def RAGPipeline.query_stream (rag : RAGPipeline) (question : String)
    (k : Option ℤ) : List String :=
  let context_docs := rag.vectorstore.similarity_search question k
  rag.generator.generate_stream question context_docs

/-- The chat loop's response printing (scripts/chat.py lines 114-122):
`for chunk in rag.query_stream(question): print(chunk, end="", ...)`, so
the terminal receives the chunks concatenated in order. -/
def chatStreamOutput (rag : RAGPipeline) (question : String) : String :=
  String.join ((rag.query_stream question none).map (fun chunk => chunk))

/-! ## Concrete demonstration instances (used by witnesses and
counterexamples) -/

def demoDoc : Document := ⟨"doc", []⟩

/-- A store whose search returns as many copies of `demoDoc` as requested
and whose add returns one id (the content) per document. -/
def demoStore : ChromaStore :=
  { search := fun _ n => List.replicate n.toNat demoDoc
    searchWithScore := fun _ n => List.replicate n.toNat (demoDoc, 0)
    addDocs := fun ds => ds.map (fun d => d.page_content) }

/-- A splitter that keeps every document as one chunk. -/
def demoSplitterId : SplitterFamily := ⟨fun _ _ _ ds => ds⟩

/-- A splitter that cuts every document into two chunks. -/
def demoSplitterDup : SplitterFamily := ⟨fun _ _ _ ds => ds ++ ds⟩

def demoGenerator : Generator :=
  ⟨⟨fun p => "ans:" ++ p, fun p => ["chunk1:", p]⟩, fun c q => c ++ "|" ++ q⟩

def demoRag : RAGPipeline :=
  ⟨{}, mkVectorStoreManager {} demoStore demoSplitterId, demoGenerator⟩

/-! ## Claims C4-C9 -/

/-- Counterexample to claim C4 as stated: with `k = 0` the query does not
retrieve by "requesting k results" - the falsy `k` falls back to
`settings.top_k` (4 here), so the context differs from the search at 0. -/
theorem C4_counterexample_k_zero :
    (demoRag.query "q" (some 0)).context ≠ demoRag.vectorstore.store.search "q" 0 := by
  decide

/-- Claim C4, amended: `query` retrieves with the given `k` when `k` is
given and nonzero, and with `settings.top_k` when `k` is not given or is 0
(falsy); the returned dictionary carries the question unchanged, exactly
the retrieved documents as context, the generator's answer for that
question and context, and the context list's length; `query_with_scores`
does the same with (document, score) pairs. -/
theorem C4_query_contract (rag : RAGPipeline) (question : String) (k : Option ℤ) :
    (rag.query question k).question = question
    ∧ (rag.query question k).context
        = rag.vectorstore.store.search question
            (match k with
              | some n => if n = 0 then rag.vectorstore.settings.top_k else n
              | none => rag.vectorstore.settings.top_k)
    ∧ (rag.query question k).answer
        = rag.generator.generate question (rag.query question k).context
    ∧ (rag.query question k).num_context_docs
        = (rag.query question k).context.length
    ∧ (rag.query_with_scores question k).question = question
    ∧ (rag.query_with_scores question k).context
        = rag.vectorstore.store.searchWithScore question
            (match k with
              | some n => if n = 0 then rag.vectorstore.settings.top_k else n
              | none => rag.vectorstore.settings.top_k)
    ∧ (rag.query_with_scores question k).answer
        = rag.generator.generate question
            ((rag.query_with_scores question k).context.map (fun p => p.1))
    ∧ (rag.query_with_scores question k).num_context_docs
        = (rag.query_with_scores question k).context.length := by
  cases k <;>
    exact ⟨rfl, rfl, rfl, rfl, rfl, rfl, rfl, by
      simp [RAGPipeline.query_with_scores]⟩

/-- The claim's wrapping of the input texts: each text becomes a `Document`
with its metadata, or an empty dict when no metadata list is given. -/
def specWrapDocs (documents : List String)
    (metadatas : Option (List (List (String × String)))) : List Document :=
  match metadatas with
  | none => documents.map (fun d => Document.mk d [])
  | some ms => (documents.zip ms).map (fun p => Document.mk p.1 p.2)

theorem pyDictOr_nil (m : List (String × String)) : pyDictOr m [] = m := by
  cases m <;> rfl

theorem zip_replicate_nil_wrap (documents : List String) :
    ((documents.zip (List.replicate documents.length
        ([] : List (String × String)))).map
      (fun p => Document.mk p.1 (pyDictOr p.2 [])))
      = documents.map (fun d => Document.mk d []) := by
  simp only [pyDictOr_nil]
  induction documents with
  | nil => rfl
  | cons d rest ih =>
      simp only [List.length_cons, List.replicate_succ, List.zip_cons_cons,
        List.map_cons, ih]

/-- Claim C5.  With a metadata list matching the documents (or none at
all), `add_documents` wraps each text with its metadata (or `{}`), splits
with the splitter configured from `settings.chunk_size`,
`settings.chunk_overlap` and character length, hands exactly those chunks
to the store, and returns one id per chunk (given that the external store
returns one id per added document), so the id count is the chunk count. -/
theorem C5_add_documents_chunks
    (settings : Settings) (store : ChromaStore) (splitterF : SplitterFamily)
    (documents : List String)
    (metadatas : Option (List (List (String × String))))
    (hadd : ∀ ds : List Document, (store.addDocs ds).length = ds.length)
    (hm : metadatas = none
      ∨ ∃ ms, metadatas = some ms ∧ ms.length = documents.length) :
    (mkVectorStoreManager settings store splitterF).add_documents documents metadatas
      = store.addDocs
          (splitterF.split settings.chunk_size settings.chunk_overlap
            (fun s => s.length) (specWrapDocs documents metadatas))
    ∧ ((mkVectorStoreManager settings store splitterF).add_documents
          documents metadatas).length
      = (splitterF.split settings.chunk_size settings.chunk_overlap
          (fun s => s.length) (specWrapDocs documents metadatas)).length := by
  have hwrap :
      ((documents.zip (match metadatas with
          | none => List.replicate documents.length []
          | some ms => if ms.isEmpty then List.replicate documents.length [] else ms)).map
        (fun p => Document.mk p.1 (pyDictOr p.2 [])))
        = specWrapDocs documents metadatas := by
    rcases hm with h | ⟨ms, h, hlen⟩
    · subst h
      exact zip_replicate_nil_wrap documents
    · subst h
      cases ms with
      | nil =>
          have : documents = [] := by
            cases documents with
            | nil => rfl
            | cons a l => simp at hlen
          subst this
          rfl
      | cons m rest =>
          simp only [specWrapDocs, List.isEmpty_cons, Bool.false_eq_true,
            if_false, pyDictOr_nil]
  have hcode :
      (mkVectorStoreManager settings store splitterF).add_documents documents metadatas
        = store.addDocs
            (splitterF.split settings.chunk_size settings.chunk_overlap
              (fun s => s.length)
              ((documents.zip (match metadatas with
                  | none => List.replicate documents.length []
                  | some ms =>
                      if ms.isEmpty then List.replicate documents.length [] else ms)).map
                (fun p => Document.mk p.1 (pyDictOr p.2 [])))) := rfl
  constructor
  · rw [hcode, hwrap]
  · rw [hcode, hwrap]
    exact hadd _

/-- Witness for C5 at concrete inputs; the duplicating splitter also shows
the id count (2) exceeding the input document count (1). -/
theorem C5_add_documents_chunks_witness :
    ((mkVectorStoreManager {} demoStore demoSplitterDup).add_documents ["hello"] none
        = demoStore.addDocs
            (demoSplitterDup.split 1000 200 (fun s => s.length)
              (specWrapDocs ["hello"] none))
      ∧ ((mkVectorStoreManager {} demoStore demoSplitterDup).add_documents
            ["hello"] none).length
        = (demoSplitterDup.split 1000 200 (fun s => s.length)
            (specWrapDocs ["hello"] none)).length)
    ∧ (["hello"] : List String).length
        < ((mkVectorStoreManager {} demoStore demoSplitterDup).add_documents
            ["hello"] none).length :=
  ⟨C5_add_documents_chunks {} demoStore demoSplitterDup ["hello"] none
      (fun ds => by simp [demoStore]) (Or.inl rfl),
    by decide⟩

/-- Claim C6.  `query_stream` yields exactly the chunk sequence the LLM
stream yields for the prompt formatted from the question and the retrieved
context, unchanged and in order; and the chat loop's terminal output is the
concatenation of exactly those chunks. -/
theorem C6_query_stream_forwards (rag : RAGPipeline) (question : String)
    (k : Option ℤ) :
    rag.query_stream question k
      = rag.generator.llm.stream
          (rag.generator.promptFormat
            (String.intercalate "\n\n"
              ((rag.vectorstore.similarity_search question k).map
                Document.page_content))
            question)
    ∧ chatStreamOutput rag question
      = String.join (rag.query_stream question none) := by
  constructor
  · simp [RAGPipeline.query_stream, Generator.generate_stream]
  · simp [chatStreamOutput]

/-- `zip` only reads the left list up to the right list's length. -/
theorem zip_take_left_eq {α β : Type} (l1 : List α) (l2 : List β) :
    l1.zip l2 = (l1.take l2.length).zip l2 := by
  induction l2 generalizing l1 with
  | nil => cases l1 <;> rfl
  | cons b t ih =>
      cases l1 with
      | nil => rfl
      | cons a s => simp [List.zip_cons_cons, ih s]

/-- Claim C8.  A non-empty metadata list shorter than the document list
silently truncates: `add_documents` behaves exactly as if only the first
`len(metadatas)` documents had been passed; and an empty metadata list is
treated the same as passing `None`. -/
theorem C8_short_metadata_truncates
    (settings : Settings) (store : ChromaStore) (splitterF : SplitterFamily)
    (documents : List String) (ms : List (List (String × String)))
    (h1 : ms ≠ []) (h2 : ms.length < documents.length) :
    (mkVectorStoreManager settings store splitterF).add_documents documents (some ms)
      = (mkVectorStoreManager settings store splitterF).add_documents
          (documents.take ms.length) (some ms)
    ∧ (mkVectorStoreManager settings store splitterF).add_documents documents (some [])
      = (mkVectorStoreManager settings store splitterF).add_documents documents none := by
  constructor
  · have hne : ms.isEmpty = false := by
      cases ms with
      | nil => exact absurd rfl h1
      | cons m t => rfl
    have hL :
        (mkVectorStoreManager settings store splitterF).add_documents documents (some ms)
          = store.addDocs
              (splitterF.split settings.chunk_size settings.chunk_overlap
                (fun s => s.length)
                ((documents.zip
                    (if ms.isEmpty then List.replicate documents.length [] else ms)).map
                  (fun p => Document.mk p.1 (pyDictOr p.2 [])))) := rfl
    have hR :
        (mkVectorStoreManager settings store splitterF).add_documents
            (documents.take ms.length) (some ms)
          = store.addDocs
              (splitterF.split settings.chunk_size settings.chunk_overlap
                (fun s => s.length)
                (((documents.take ms.length).zip
                    (if ms.isEmpty then List.replicate (documents.take ms.length).length []
                      else ms)).map
                  (fun p => Document.mk p.1 (pyDictOr p.2 [])))) := rfl
    rw [hL, hR]
    simp only [hne, Bool.false_eq_true, if_false]
    rw [zip_take_left_eq documents ms]
  · rfl

/-- Witness for C8: two documents, one metadata dict - the second document
is dropped; and `some []` coincides with `none`. -/
theorem C8_short_metadata_truncates_witness :
    ((mkVectorStoreManager {} demoStore demoSplitterId).add_documents
        ["a", "b"] (some [[("k", "v")]])
      = (mkVectorStoreManager {} demoStore demoSplitterId).add_documents
          (["a", "b"].take 1) (some [[("k", "v")]])
    ∧ (mkVectorStoreManager {} demoStore demoSplitterId).add_documents
        ["a", "b"] (some [])
      = (mkVectorStoreManager {} demoStore demoSplitterId).add_documents
          ["a", "b"] none)
    ∧ (mkVectorStoreManager {} demoStore demoSplitterId).add_documents
        ["a", "b"] (some [[("k", "v")]]) = ["a"] :=
  ⟨C8_short_metadata_truncates {} demoStore demoSplitterId ["a", "b"]
      [[("k", "v")]] (List.cons_ne_nil _ _) (by decide),
    by decide⟩

/-- Claim C9.  Passing `k = 0` to the similarity searches (and so to
`query`, `query_with_scores` and `query_stream`) is the same as passing no
`k`: the falsy value falls back to `settings.top_k`. -/
theorem C9_zero_k_falls_back (rag : RAGPipeline) (q : String) :
    rag.vectorstore.similarity_search q (some 0)
        = rag.vectorstore.similarity_search q none
    ∧ rag.vectorstore.similarity_search_with_score q (some 0)
        = rag.vectorstore.similarity_search_with_score q none
    ∧ rag.query q (some 0) = rag.query q none
    ∧ rag.query_with_scores q (some 0) = rag.query_with_scores q none
    ∧ rag.query_stream q (some 0) = rag.query_stream q none
    ∧ effectiveK (some 0) rag.vectorstore.settings.top_k
        = rag.vectorstore.settings.top_k :=
  ⟨rfl, rfl, rfl, rfl, rfl, rfl⟩

/-! ## PDF processing statistics (`PDFLayoutProcessor.process_pdf`) -/

/-- The metadata dictionary `process_pdf` builds (lines 267-276). -/
structure PdfMetadata where
  source : String
  filename : String
  num_pages : ℕ
  file_type : String
  num_text_elements : ℕ
  num_headings : ℕ
  avg_font_size : ℚ
  layout_preserved : Bool
  deriving Repr, DecidableEq

/-- `PDFLayoutProcessor.process_pdf` (lines 242-278), over the extracted
word pages: format the elements, count headings, average the truthy font
sizes over ALL elements (0 for an empty document), count distinct pages. -/
def process_pdf (pl : Bool) (pdf : List (List Word))
    (source filename : String) : String × PdfMetadata :=
  let elements := extract_text_elements pdf
  let formatted_text := format_with_layout_context pl elements
  let num_headings := elements.countP (fun e => e.is_likely_heading)
  let avg_font_size : ℚ :=
    if elements.isEmpty then 0
    else ((elements.filter (fun e => ratTruthy e.font_size)).map
        (fun e => e.font_size.getD 0)).sum / (elements.length : ℚ)
  let pages := (elements.map (fun e => e.page_number)).dedup
  (formatted_text,
    { source, filename
      num_pages := pages.length
      file_type := "pdf"
      num_text_elements := elements.length
      num_headings, avg_font_size
      layout_preserved := pl })

theorem truthy_size_filterMap (l : List TextElement) :
    (l.filterMap (fun e => if ratTruthy e.font_size then e.font_size else none))
      = (l.filter (fun e => ratTruthy e.font_size)).map (fun e => e.font_size.getD 0) := by
  induction l with
  | nil => rfl
  | cons e t ih =>
      by_cases he : ratTruthy e.font_size = true
      · cases hs : e.font_size with
        | none => rw [hs] at he; exact absurd he (by simp [ratTruthy])
        | some s =>
            rw [hs] at he
            simp only [List.filterMap_cons, List.filter_cons, hs, he, if_true,
              List.map_cons, ih, Option.getD_some]
      · simp only [List.filterMap_cons, List.filter_cons, he, ih]
        simp only [Bool.false_eq_true, if_false, ih]

/-- Claim C10.  The `process_pdf` statistics: `avg_font_size` is the sum of
the truthy font sizes divided by the TOTAL number of elements (0 for an
empty element list, so no division by zero), `num_headings` counts the
elements the heading heuristic accepts, and `num_pages` counts the distinct
page numbers among the elements. -/
theorem C10_process_pdf_statistics (pl : Bool) (pdf : List (List Word))
    (source filename : String) :
    ((process_pdf pl pdf source filename).2.avg_font_size
        = (if (extract_text_elements pdf).length = 0 then 0
            else ((extract_text_elements pdf).filterMap
                (fun e => if ratTruthy e.font_size then e.font_size else none)).sum
              / ((extract_text_elements pdf).length : ℚ)))
    ∧ (extract_text_elements pdf = []
        → (process_pdf pl pdf source filename).2.avg_font_size = 0)
    ∧ (process_pdf pl pdf source filename).2.num_headings
        = ((extract_text_elements pdf).filter (fun e => e.is_likely_heading)).length
    ∧ (process_pdf pl pdf source filename).2.num_pages
        = ((extract_text_elements pdf).map (fun e => e.page_number)).toFinset.card
    ∧ (process_pdf pl pdf source filename).2.num_text_elements
        = (extract_text_elements pdf).length := by
  refine ⟨?_, ?_, ?_, ?_, rfl⟩
  · rw [truthy_size_filterMap]
    show (if (extract_text_elements pdf).isEmpty then (0 : ℚ) else _) = _
    simp only [List.isEmpty_iff_length_eq_zero]
  · intro h
    show (if (extract_text_elements pdf).isEmpty then (0 : ℚ) else _) = 0
    rw [h]
    rfl
  · show (extract_text_elements pdf).countP (fun e => e.is_likely_heading) = _
    exact List.countP_eq_length_filter _ _
  · show ((extract_text_elements pdf).map (fun e => e.page_number)).dedup.length = _
    rw [List.card_toFinset]

/-! ## The ingestion CLI's loader (`scripts/ingest_documents.py`) -/

/-- A file the directory walk finds: its printable path, its extension
(`file_path.suffix`), and the outcome each loader would produce for it -
`Except.error` models a raised exception.  The PDF loader takes the
`preserve_layout` flag. -/
structure SrcFile where
  path : String
  ext : String
  asPdf : Bool → Except String (String × List (String × String))
  asDocx : Except String (String × List (String × String))
  asPptx : Except String (String × List (String × String))
  asText : Except String (String × List (String × String))

/-- `supported_extensions` (line 137). -/
def supported_extensions : List String := [".txt", ".pdf", ".docx", ".pptx"]

/-- The loader dispatch on `file_path.suffix.lower()` (lines 144-151). -/
def loadFile (preserve_layout : Bool) (f : SrcFile) :
    Except String (String × List (String × String)) :=
  if strLower f.ext = ".pdf" then f.asPdf preserve_layout
  else if strLower f.ext = ".docx" then f.asDocx
  else if strLower f.ext = ".pptx" then f.asPptx
  else f.asText

/-- `load_documents` (lines 126-158): walk the files in order, skip
unsupported extensions, try each loader, collect `(content, metadata)` on
success and a printed line per file (`Loaded: ...` or
`Error loading ...: ...`); an exception is caught, logged, and the walk
continues.  Returns (collected documents, printed lines). -/
def load_documents (preserve_layout : Bool) :
    List SrcFile → List (String × List (String × String)) × List String
  | [] => ([], [])
  | f :: rest =>
      if supported_extensions.contains (strLower f.ext) then
        let r := load_documents preserve_layout rest
        match loadFile preserve_layout f with
        | Except.ok cm => (cm :: r.1, ("Loaded: " ++ f.path) :: r.2)
        | Except.error e => (r.1, ("Error loading " ++ f.path ++ ": " ++ e) :: r.2)
      else
        load_documents preserve_layout rest

/-- Claim C7.  A failing file never propagates its exception: the result
holds exactly one entry per successfully loaded supported file, in
traversal order; every failing supported file contributes no entry but one
printed error line naming it; unsupported extensions are skipped
entirely. -/
theorem C7_load_documents_error_isolation (pl : Bool) (files : List SrcFile) :
    (load_documents pl files).1
      = ((files.filter (fun f => supported_extensions.contains (strLower f.ext))).filterMap
          (fun f => (loadFile pl f).toOption))
    ∧ (load_documents pl files).2
      = (files.filter (fun f => supported_extensions.contains (strLower f.ext))).map
          (fun f =>
            match loadFile pl f with
            | Except.ok _ => "Loaded: " ++ f.path
            | Except.error e => "Error loading " ++ f.path ++ ": " ++ e) := by
  induction files with
  | nil => exact ⟨rfl, rfl⟩
  | cons f rest ih =>
      by_cases hs : supported_extensions.contains (strLower f.ext) = true
      · cases hl : loadFile pl f with
        | ok cm =>
            refine ⟨?_, ?_⟩ <;>
              simp only [load_documents, hs, if_true, hl, List.filter_cons,
                List.filterMap_cons, List.map_cons, Except.toOption, ih.1, ih.2]
        | error e =>
            refine ⟨?_, ?_⟩ <;>
              simp only [load_documents, hs, if_true, hl, List.filter_cons,
                List.filterMap_cons, List.map_cons, Except.toOption, ih.1, ih.2]
      · refine ⟨?_, ?_⟩ <;>
          simp only [load_documents, hs, Bool.false_eq_true, if_false,
            List.filter_cons, ih.1, ih.2]

end LocalRag
